import Mathlib

/-!
# The build command of the lifecycle (`cmd/lifecycle/builder.go`)

A shallow embedding of `buildCmd` and `buildArgs` and of their methods `Args`,
`Privileges`, `Exec`, `build` and `readData`.

The command talks to collaborators that live in other packages (the execution
engine, the TOML reader and writer, the privilege query, `filepath.Abs`, ...).
They are the fields of `World`; every method takes the world as an argument and
returns, next to its Go result, the list of collaborator calls it made, in
order.  Each collaborator is called at most once by every method, so a function
of the call's arguments describes it completely.
-/

namespace Lifecycle

/-! ## Errors -/

/-- The `Type` field of a `*lifecycle.Error`; only `ErrTypeBuildpack` is named by
the build command. -/
inductive ErrType
  | ErrTypeBuildpack
  | other (name : String)
  deriving DecidableEq, Repr

/-- Error values produced by the collaborators of the build command
(`errors.New`, `filepath.Abs`, `lifecycle.ReadGroup`, `toml.DecodeFile`,
`Builder.Build`, `lifecycle.WriteTOML`).  The type switch of `build` tells a
`*lifecycle.Error` (root error and type) from every other error value, which is
identified here by its message. -/
inductive LibError
  | errorString (msg : String)
  | lifecycleError (rootError : LibError) (typ : ErrType)
  deriving DecidableEq, Repr

/-- Modelled from the spec: the exit-code constants of package `cmd` are not
under `src/`.  Section 6 gives the exit classification as a fixed set of
distinct outcomes ("abstract, not literal codes") and section 4.7 asks for a
buildpack-failure code distinct from all infrastructure codes; the four
constants that `builder.go` uses are the constructors. -/
inductive ExitCode
  | CodeFailed
  | CodeInvalidArgs
  | CodeFailedBuildWithErrors
  | CodeBuildError
  deriving DecidableEq, Repr

/-- The `*cmd.ErrorFail` value: a cause, an exit code and the action that
failed. -/
structure ErrorFail where
  Err : LibError
  Code : ExitCode
  Action : List String
  deriving DecidableEq, Repr

/-- Modelled from the spec: `cmd.FailErrCode` is not under `src/`; it tags the
cause with the given exit code and action (section 3, "a tagged failure with a
classification and an underlying cause"). -/
def FailErrCode (err : LibError) (code : ExitCode) (action : List String) : ErrorFail :=
  { Err := err, Code := code, Action := action }

/-- Modelled from the spec: `cmd.FailErr` is not under `src/`; it tags a
collaborator's error with the generic failure code (section 7, infrastructure
failures are "reported with the underlying cause attached").  In `builder.go`
its argument always comes from outside package `cmd` (`errors.New`,
`lifecycle.ReadGroup`, `toml.DecodeFile`, `lifecycle.WriteTOML`), hence the
argument type `LibError`. -/
def FailErr (err : LibError) (action : List String) : ErrorFail :=
  FailErrCode err ExitCode.CodeFailed action

/-- A Go `error` as returned by the command's methods: a collaborator's error
passed on as it is, or a `*cmd.ErrorFail`. -/
inductive GoError
  | lib (e : LibError)
  | errorFail (e : ErrorFail)
  deriving DecidableEq, Repr

/-! ## Data -/

/-- Modelled from the spec: `lifecycle.GroupBuildpack` is not under `src/`
(section 3: identifier, version, declared API version, optionality flag). -/
structure GroupBuildpack where
  ID : String
  Version : String
  API : String
  Optional : Bool
  deriving DecidableEq, Repr

/-- Modelled from the spec: `lifecycle.BuildpackGroup`, an ordered sequence of
buildpack references. -/
structure BuildpackGroup where
  Group : List GroupBuildpack
  deriving DecidableEq, Repr

/-- Modelled from the spec: one entry of the build plan, the buildpacks that
provide a dependency and the names required. -/
structure BuildPlanEntry where
  Providers : List GroupBuildpack
  Requires : List String
  deriving DecidableEq, Repr

/-- Modelled from the spec: `lifecycle.BuildPlan`; the command passes it
through without looking inside. -/
structure BuildPlan where
  Entries : List BuildPlanEntry
  deriving DecidableEq, Repr

/-- Modelled from the spec: `lifecycle.BuildMetadata` (section 3: layer
descriptors, dependency records, process types, labels and slices); the command
passes it through without looking inside. -/
structure BuildMetadata where
  Layers : List String
  BOM : List String
  Buildpacks : List GroupBuildpack
  Processes : List String
  Labels : List (String × String)
  Slices : List String
  deriving DecidableEq, Repr

/-- A parsed platform API version (`*api.Version`). -/
structure APIVersion where
  major : Nat
  minor : Nat
  deriving DecidableEq, Repr

/-- The build environment made by `env.NewBuildEnv` from `os.Environ()`. -/
structure BuildEnv where
  vars : List String
  deriving DecidableEq, Repr

/-- The two package-level loggers `cmd.Stdout` and `cmd.Stderr`. -/
inductive Logger
  | Stdout
  | Stderr
  deriving DecidableEq, Repr

/-- The value `lifecycle.DirBuildpackStore`. -/
structure DirBuildpackStore where
  Dir : String
  deriving DecidableEq, Repr

/-- The fields of `lifecycle.Builder` that `build` sets. -/
structure Builder where
  AppDir : String
  LayersDir : String
  PlatformDir : String
  PlatformAPI : APIVersion
  Env : BuildEnv
  Group : BuildpackGroup
  Plan : BuildPlan
  Out : Logger
  Err : Logger
  BuildpackStore : DirBuildpackStore
  deriving DecidableEq, Repr

/-- The struct `buildArgs`. -/
structure buildArgs where
  buildpacksDir : String
  layersDir : String
  appDir : String
  platformDir : String
  platformAPI : String
  deriving DecidableEq, Repr

/-- The struct `buildCmd`, which embeds `buildArgs`. -/
structure buildCmd extends buildArgs where
  groupPath : String
  planPath : String
  deriving DecidableEq, Repr

/-! ## Collaborators and effects -/

/-- The collaborators of the build command, none of which is under `src/`:
each is taken as a parameter.  `NewVersion` is the parser behind
`api.MustParse`; `Build` is the execution engine's `Builder.Build()`.
`DefaultGroupPath` and `DefaultPlanPath` take the platform API string and the
layers directory; they answer `none` where the call does not return but panics,
as it does on a platform API that does not parse. -/
structure World where
  IsPrivileged : Bool
  PlaceholderGroupPath : String
  PlaceholderPlanPath : String
  DefaultGroupPath : String → String → Option String
  DefaultPlanPath : String → String → Option String
  GetMetadataFilePath : String → String
  Abs : String → Except LibError String
  NewVersion : String → Option APIVersion
  Environ : List String
  NewBuildEnv : List String → BuildEnv
  ReadGroup : String → Except LibError BuildpackGroup
  DecodeFile : String → Except LibError BuildPlan
  verifyBuildpackApis : BuildpackGroup → Option GoError
  Build : Builder → Except LibError BuildMetadata
  WriteTOML : String → BuildMetadata → Option LibError

/-- A call to a collaborator that reads or writes a file or runs buildpacks. -/
inductive Event
  | ReadGroup (path : String)
  | DecodeFile (path : String)
  | Build (builder : Builder)
  | WriteTOML (path : String) (md : BuildMetadata)
  deriving DecidableEq, Repr

/-- How a method ends: it returns its `error` result (`none` is `nil`), or a
panic unwinds it. -/
inductive Outcome
  | returned (err : Option GoError)
  | panicked
  deriving DecidableEq, Repr

/-- What running a method leaves behind: the receiver's fields, the
collaborator calls made in order, and the outcome. -/
structure Ran where
  cmd : buildCmd
  trace : List Event
  result : Outcome
  deriving DecidableEq, Repr

/-- Number of calls of the execution engine's `Build()` in a trace. -/
def engineCalls (tr : List Event) : Nat :=
  tr.countP fun e => match e with
    | Event.Build _ => true
    | _ => false

/-- The metadata writes of a trace, in order: path and value written. -/
def metadataWrites (tr : List Event) : List (String × BuildMetadata) :=
  tr.filterMap fun e => match e with
    | Event.WriteTOML path md => some (path, md)
    | _ => none

/-- The config files read in a trace (group and plan), in order. -/
def configReads (tr : List Event) : List String :=
  tr.filterMap fun e => match e with
    | Event.ReadGroup path => some path
    | Event.DecodeFile path => some path
    | _ => none

/-- The contexts handed to the execution engine in a trace, in order. -/
def engineContexts (tr : List Event) : List Builder :=
  tr.filterMap fun e => match e with
    | Event.Build builder => some builder
    | _ => none

/-! ## The methods of `builder.go` -/

/-- The second `if` of `Args` and its `return nil`: the plan path is resolved
if it is the placeholder.  A panic in `cmd.DefaultPlanPath` unwinds `Args`,
which has no `recover`. -/
def buildCmd.resolvePlanPath (w : World) (b : buildCmd) : Ran :=
  if b.planPath = w.PlaceholderPlanPath then
    match w.DefaultPlanPath b.platformAPI b.layersDir with
    | none => { cmd := b, trace := [], result := .panicked }
    | some path =>
      { cmd := { b with planPath := path }, trace := [], result := .returned none }
  else
    { cmd := b, trace := [], result := .returned none }

/-- `func (b *buildCmd) Args(nargs int, args []string) error`.  A panic in
`cmd.DefaultGroupPath` unwinds `Args` before the plan path is looked at. -/
def buildCmd.Args (w : World) (b : buildCmd) (nargs : Int) (_args : List String) : Ran :=
  if nargs ≠ 0 then
    { cmd := b, trace := [],
      result := .returned (some (.errorFail
        (FailErrCode (.errorString "received unexpected arguments")
          ExitCode.CodeInvalidArgs ["parse arguments"]))) }
  else if b.groupPath = w.PlaceholderGroupPath then
    match w.DefaultGroupPath b.platformAPI b.layersDir with
    | none => { cmd := b, trace := [], result := .panicked }
    | some path => buildCmd.resolvePlanPath w { b with groupPath := path }
  else
    buildCmd.resolvePlanPath w b

/-- `func (b *buildCmd) Privileges() error`. -/
def buildCmd.Privileges (w : World) (b : buildCmd) : Ran :=
  if w.IsPrivileged then
    { cmd := b, trace := [],
      result := .returned (some (.errorFail
        (FailErr (.errorString "refusing to run as root") ["build"]))) }
  else
    { cmd := b, trace := [], result := .returned none }

/-- The composite literal `&lifecycle.Builder{...}` of `build`, once the
buildpacks directory and the platform API have been computed. -/
def newBuilder (w : World) (ba : buildArgs) (buildpacksDir : String) (platformAPI : APIVersion)
    (group : BuildpackGroup) (plan : BuildPlan) : Builder :=
  { AppDir := ba.appDir
    LayersDir := ba.layersDir
    PlatformDir := ba.platformDir
    PlatformAPI := platformAPI
    Env := w.NewBuildEnv w.Environ
    Group := group
    Plan := plan
    Out := Logger.Stdout
    Err := Logger.Stderr
    BuildpackStore := { Dir := buildpacksDir } }

/-- `func (ba buildArgs) build(group, plan) error`: the calls made and the
outcome.  `api.MustParse` has no error result: where the version does not
parse it panics, and `build` has no `recover`. -/
def buildArgs.build (w : World) (ba : buildArgs) (group : BuildpackGroup) (plan : BuildPlan) :
    List Event × Outcome :=
  match w.Abs ba.buildpacksDir with
  | .error err =>
    ([], .returned (some (.errorFail (FailErrCode err ExitCode.CodeBuildError ["build"]))))
  | .ok buildpacksDir =>
    match w.NewVersion ba.platformAPI with
    | none => ([], .panicked)
    | some platformAPI =>
      let builder := newBuilder w ba buildpacksDir platformAPI group plan
      match w.Build builder with
      | .error err =>
        match err with
        | .lifecycleError rootError typ =>
          if typ = ErrType.ErrTypeBuildpack then
            ([.Build builder], .returned (some (.errorFail
              (FailErrCode rootError ExitCode.CodeFailedBuildWithErrors ["build"]))))
          else
            ([.Build builder], .returned (some (.errorFail
              (FailErrCode err ExitCode.CodeBuildError ["build"]))))
        | .errorString _ =>
          ([.Build builder], .returned (some (.errorFail
            (FailErrCode err ExitCode.CodeBuildError ["build"]))))
      | .ok md =>
        let path := w.GetMetadataFilePath ba.layersDir
        match w.WriteTOML path md with
        | some werr =>
          ([.Build builder, .WriteTOML path md],
            .returned (some (.errorFail (FailErr werr ["write build metadata"]))))
        | none => ([.Build builder, .WriteTOML path md], .returned none)

/-- `func (b *buildCmd) readData() (BuildpackGroup, BuildPlan, error)`, with
the calls made. -/
def buildCmd.readData (w : World) (b : buildCmd) :
    List Event × BuildpackGroup × BuildPlan × Option GoError :=
  match w.ReadGroup b.groupPath with
  | .error err =>
    ([.ReadGroup b.groupPath], { Group := [] }, { Entries := [] },
      some (.errorFail (FailErr err ["read buildpack group"])))
  | .ok group =>
    match w.DecodeFile b.planPath with
    | .error err =>
      ([.ReadGroup b.groupPath, .DecodeFile b.planPath], { Group := [] }, { Entries := [] },
        some (.errorFail (FailErr err ["parse detect plan"])))
    | .ok plan =>
      ([.ReadGroup b.groupPath, .DecodeFile b.planPath], group, plan, none)

/-- `func (b *buildCmd) Exec() error`. -/
def buildCmd.Exec (w : World) (b : buildCmd) : Ran :=
  match b.readData w with
  | (tr, _, _, some err) => { cmd := b, trace := tr, result := .returned (some err) }
  | (tr, group, plan, none) =>
    match w.verifyBuildpackApis group with
    | some err => { cmd := b, trace := tr, result := .returned (some err) }
    | none =>
      let r := b.tobuildArgs.build w group plan
      { cmd := b, trace := tr ++ r.1, result := r.2 }

/-! ## Concrete worlds -/

/-- A group of one buildpack, of buildpack API "0.2". -/
def sampleGroup : BuildpackGroup :=
  { Group := [{ ID := "buildpack/a", Version := "1", API := "0.2", Optional := false }] }

/-- The same group with the buildpack API "0.9", which the lifecycle does not
support. -/
def unsupportedGroup : BuildpackGroup :=
  { Group := [{ ID := "buildpack/a", Version := "1", API := "0.9", Optional := false }] }

/-- An empty plan. -/
def samplePlan : BuildPlan := { Entries := [] }

/-- Some metadata for the engine to return. -/
def sampleMetadata : BuildMetadata :=
  { Layers := ["buildpack/a:deps"], BOM := [], Buildpacks := sampleGroup.Group,
    Processes := ["web"], Labels := [], Slices := [] }

/-- The version parser on the platform API strings used below: "0.3", "0.4"
and "0.5" parse, the empty string does not. -/
def sampleNewVersion (s : String) : Option APIVersion :=
  if s = "0.3" then some { major := 0, minor := 3 }
  else if s = "0.4" then some { major := 0, minor := 4 }
  else if s = "0.5" then some { major := 0, minor := 5 }
  else none

/-- The default location of a config file: the call panics on a platform API
that does not parse; before platform API 0.5, or without a layers directory,
the file is in the working directory, later in the layers directory. -/
def sampleDefaultPath (fileName platformAPI layersDir : String) : Option String :=
  match sampleNewVersion platformAPI with
  | none => none
  | some v =>
    if (v.major = 0 ∧ v.minor < 5) ∨ layersDir = "" then some fileName
    else some (layersDir ++ "/" ++ fileName)

/-- A verifier that accepts the buildpack APIs "0.2" to "0.4", and the empty
one, and rejects a group with any other. -/
def sampleVerifyBuildpackApis (group : BuildpackGroup) : Option GoError :=
  if group.Group.all (fun bp => decide (bp.API ∈ ["", "0.2", "0.3", "0.4"])) then none
  else some (.lib (.errorString "buildpack API version is incompatible with the lifecycle"))

/-- A world in which a build goes through: unprivileged, the working directory
is the root, the group file holds `sampleGroup` and the plan file `samplePlan`,
the engine returns `sampleMetadata` and the write succeeds. -/
def sampleWorld : World :=
  { IsPrivileged := false
    PlaceholderGroupPath := "<layers>/group.toml"
    PlaceholderPlanPath := "<layers>/plan.toml"
    DefaultGroupPath := sampleDefaultPath "group.toml"
    DefaultPlanPath := sampleDefaultPath "plan.toml"
    GetMetadataFilePath := fun layersDir => layersDir ++ "/config/metadata.toml"
    Abs := fun path => if path.data.head? = some '/' then .ok path else .ok ("/" ++ path)
    NewVersion := sampleNewVersion
    Environ := ["PATH=/bin"]
    NewBuildEnv := fun vars => { vars := vars }
    ReadGroup := fun _ => .ok sampleGroup
    DecodeFile := fun _ => .ok samplePlan
    verifyBuildpackApis := sampleVerifyBuildpackApis
    Build := fun _ => .ok sampleMetadata
    WriteTOML := fun _ _ => none }

/-- A command line with every path given and platform API "0.4". -/
def sampleCmd : buildCmd :=
  { buildpacksDir := "cnb/buildpacks", layersDir := "/layers", appDir := "/workspace",
    platformDir := "/platform", platformAPI := "0.4",
    groupPath := "/layers/group.toml", planPath := "/layers/plan.toml" }

/-- The same command line with an empty platform API version. -/
def emptyAPICmd : buildCmd := { sampleCmd with platformAPI := "" }

/-- The command line with the group path left as the placeholder and a plan
path given. -/
def placeholderGroupCmd : buildCmd :=
  { sampleCmd with groupPath := "<layers>/group.toml", planPath := "my/plan.toml" }

/-- The command line with both paths left as placeholders and an empty platform
API version. -/
def placeholderEmptyAPICmd : buildCmd :=
  { sampleCmd with
    platformAPI := "", groupPath := "<layers>/group.toml", planPath := "<layers>/plan.toml" }

/-- The engine fails because a buildpack failed. -/
def buildpackFailureWorld : World :=
  { sampleWorld with
    Build := fun _ => .error (.lifecycleError (.errorString "exit status 1") .ErrTypeBuildpack) }

/-- The engine fails for a reason of its own. -/
def engineFailureWorld : World :=
  { sampleWorld with Build := fun _ => .error (.errorString "no such file or directory") }

/-- The engine succeeds and the metadata file cannot be written. -/
def writeFailureWorld : World :=
  { sampleWorld with WriteTOML := fun _ _ => some (.errorString "no space left on device") }

/-- The working directory cannot be determined. -/
def noCwdWorld : World :=
  { sampleWorld with Abs := fun _ => .error (.errorString "getwd: no such file or directory") }

/-- The group file is missing. -/
def noGroupWorld : World :=
  { sampleWorld with ReadGroup := fun _ => .error (.errorString "open group.toml: no such file") }

/-- The plan file is malformed. -/
def badPlanWorld : World :=
  { sampleWorld with DecodeFile := fun _ => .error (.errorString "toml: expected key") }

/-- The group file holds a buildpack of an API that the verifier rejects. -/
def incompatibleWorld : World :=
  { sampleWorld with ReadGroup := fun _ => .ok unsupportedGroup }

/-- The process runs as root; everything else succeeds. -/
def rootWorld : World := { sampleWorld with IsPrivileged := true }

/-! ## Helper lemmas -/

theorem build_of_abs_error (w : World) (ba : buildArgs) (group : BuildpackGroup)
    (plan : BuildPlan) (err : LibError) (hAbs : w.Abs ba.buildpacksDir = .error err) :
    ba.build w group plan =
      ([], .returned (some (.errorFail ⟨err, .CodeBuildError, ["build"]⟩))) := by
  simp [buildArgs.build, hAbs, FailErrCode]

theorem build_of_parse_failure (w : World) (ba : buildArgs) (group : BuildpackGroup)
    (plan : BuildPlan) (dir : String) (hAbs : w.Abs ba.buildpacksDir = .ok dir)
    (hVer : w.NewVersion ba.platformAPI = none) :
    ba.build w group plan = ([], .panicked) := by
  simp [buildArgs.build, hAbs, hVer]

theorem build_of_buildpack_error (w : World) (ba : buildArgs) (group : BuildpackGroup)
    (plan : BuildPlan) (dir : String) (v : APIVersion) (root : LibError)
    (hAbs : w.Abs ba.buildpacksDir = .ok dir) (hVer : w.NewVersion ba.platformAPI = some v)
    (hB : w.Build (newBuilder w ba dir v group plan)
      = .error (.lifecycleError root .ErrTypeBuildpack)) :
    ba.build w group plan =
      ([.Build (newBuilder w ba dir v group plan)],
        .returned (some (.errorFail ⟨root, .CodeFailedBuildWithErrors, ["build"]⟩))) := by
  simp [buildArgs.build, hAbs, hVer, hB, FailErrCode]

theorem build_of_other_error (w : World) (ba : buildArgs) (group : BuildpackGroup)
    (plan : BuildPlan) (dir : String) (v : APIVersion) (err : LibError)
    (hAbs : w.Abs ba.buildpacksDir = .ok dir) (hVer : w.NewVersion ba.platformAPI = some v)
    (hB : w.Build (newBuilder w ba dir v group plan) = .error err)
    (hne : ∀ root, err ≠ .lifecycleError root .ErrTypeBuildpack) :
    ba.build w group plan =
      ([.Build (newBuilder w ba dir v group plan)],
        .returned (some (.errorFail ⟨err, .CodeBuildError, ["build"]⟩))) := by
  cases err with
  | errorString msg => simp [buildArgs.build, hAbs, hVer, hB, FailErrCode]
  | lifecycleError root typ =>
    have ht : typ ≠ .ErrTypeBuildpack := fun h => hne root (by rw [h])
    simp [buildArgs.build, hAbs, hVer, hB, FailErrCode, ht]

theorem build_of_write_error (w : World) (ba : buildArgs) (group : BuildpackGroup)
    (plan : BuildPlan) (dir : String) (v : APIVersion) (md : BuildMetadata) (werr : LibError)
    (hAbs : w.Abs ba.buildpacksDir = .ok dir) (hVer : w.NewVersion ba.platformAPI = some v)
    (hB : w.Build (newBuilder w ba dir v group plan) = .ok md)
    (hW : w.WriteTOML (w.GetMetadataFilePath ba.layersDir) md = some werr) :
    ba.build w group plan =
      ([.Build (newBuilder w ba dir v group plan),
          .WriteTOML (w.GetMetadataFilePath ba.layersDir) md],
        .returned (some (.errorFail ⟨werr, .CodeFailed, ["write build metadata"]⟩))) := by
  simp [buildArgs.build, hAbs, hVer, hB, hW, FailErr, FailErrCode]

theorem build_of_success (w : World) (ba : buildArgs) (group : BuildpackGroup)
    (plan : BuildPlan) (dir : String) (v : APIVersion) (md : BuildMetadata)
    (hAbs : w.Abs ba.buildpacksDir = .ok dir) (hVer : w.NewVersion ba.platformAPI = some v)
    (hB : w.Build (newBuilder w ba dir v group plan) = .ok md)
    (hW : w.WriteTOML (w.GetMetadataFilePath ba.layersDir) md = none) :
    ba.build w group plan =
      ([.Build (newBuilder w ba dir v group plan),
          .WriteTOML (w.GetMetadataFilePath ba.layersDir) md],
        .returned none) := by
  simp [buildArgs.build, hAbs, hVer, hB, hW]

/-- The six ways `build` can run, each with what the collaborators answered. -/
theorem build_cases (w : World) (ba : buildArgs) (group : BuildpackGroup) (plan : BuildPlan) :
    (∃ err, w.Abs ba.buildpacksDir = .error err ∧
      ba.build w group plan =
        ([], .returned (some (.errorFail ⟨err, .CodeBuildError, ["build"]⟩)))) ∨
    (∃ dir, w.Abs ba.buildpacksDir = .ok dir ∧ w.NewVersion ba.platformAPI = none ∧
      ba.build w group plan = ([], .panicked)) ∨
    (∃ dir v root, w.Abs ba.buildpacksDir = .ok dir ∧ w.NewVersion ba.platformAPI = some v ∧
      w.Build (newBuilder w ba dir v group plan)
        = .error (.lifecycleError root .ErrTypeBuildpack) ∧
      ba.build w group plan =
        ([.Build (newBuilder w ba dir v group plan)],
          .returned (some (.errorFail ⟨root, .CodeFailedBuildWithErrors, ["build"]⟩)))) ∨
    (∃ dir v err, w.Abs ba.buildpacksDir = .ok dir ∧ w.NewVersion ba.platformAPI = some v ∧
      w.Build (newBuilder w ba dir v group plan) = .error err ∧
      (∀ root, err ≠ .lifecycleError root .ErrTypeBuildpack) ∧
      ba.build w group plan =
        ([.Build (newBuilder w ba dir v group plan)],
          .returned (some (.errorFail ⟨err, .CodeBuildError, ["build"]⟩)))) ∨
    (∃ dir v md werr, w.Abs ba.buildpacksDir = .ok dir ∧
      w.NewVersion ba.platformAPI = some v ∧
      w.Build (newBuilder w ba dir v group plan) = .ok md ∧
      w.WriteTOML (w.GetMetadataFilePath ba.layersDir) md = some werr ∧
      ba.build w group plan =
        ([.Build (newBuilder w ba dir v group plan),
            .WriteTOML (w.GetMetadataFilePath ba.layersDir) md],
          .returned (some (.errorFail ⟨werr, .CodeFailed, ["write build metadata"]⟩)))) ∨
    (∃ dir v md, w.Abs ba.buildpacksDir = .ok dir ∧ w.NewVersion ba.platformAPI = some v ∧
      w.Build (newBuilder w ba dir v group plan) = .ok md ∧
      w.WriteTOML (w.GetMetadataFilePath ba.layersDir) md = none ∧
      ba.build w group plan =
        ([.Build (newBuilder w ba dir v group plan),
            .WriteTOML (w.GetMetadataFilePath ba.layersDir) md],
          .returned none)) := by
  rcases hAbs : w.Abs ba.buildpacksDir with err | dir
  · exact Or.inl ⟨err, rfl, build_of_abs_error w ba group plan err hAbs⟩
  · rcases hVer : w.NewVersion ba.platformAPI with _ | v
    · exact Or.inr (Or.inl ⟨dir, rfl, rfl, build_of_parse_failure w ba group plan dir hAbs hVer⟩)
    · rcases hB : w.Build (newBuilder w ba dir v group plan) with err | md
      · by_cases hx : ∃ root, err = .lifecycleError root .ErrTypeBuildpack
        · obtain ⟨root, rfl⟩ := hx
          exact Or.inr (Or.inr (Or.inl ⟨dir, v, root, rfl, rfl, hB,
            build_of_buildpack_error w ba group plan dir v root hAbs hVer hB⟩))
        · have hne : ∀ root, err ≠ .lifecycleError root .ErrTypeBuildpack :=
            fun root h => hx ⟨root, h⟩
          exact Or.inr (Or.inr (Or.inr (Or.inl ⟨dir, v, err, rfl, rfl, hB, hne,
            build_of_other_error w ba group plan dir v err hAbs hVer hB hne⟩)))
      · rcases hW : w.WriteTOML (w.GetMetadataFilePath ba.layersDir) md with _ | werr
        · exact Or.inr (Or.inr (Or.inr (Or.inr (Or.inr ⟨dir, v, md, rfl, rfl, hB, hW,
            build_of_success w ba group plan dir v md hAbs hVer hB hW⟩))))
        · exact Or.inr (Or.inr (Or.inr (Or.inr (Or.inl ⟨dir, v, md, werr, rfl, rfl, hB, hW,
            build_of_write_error w ba group plan dir v md werr hAbs hVer hB hW⟩))))

/-- The run of `Exec` when the group file cannot be read. -/
theorem Exec_of_group_error (w : World) (b : buildCmd) (err : LibError)
    (hG : w.ReadGroup b.groupPath = .error err) :
    b.Exec w =
      { cmd := b, trace := [.ReadGroup b.groupPath],
        result := .returned (some (.errorFail ⟨err, .CodeFailed, ["read buildpack group"]⟩)) } := by
  simp [buildCmd.Exec, buildCmd.readData, hG, FailErr, FailErrCode]

/-- The run of `Exec` when the plan file cannot be decoded. -/
theorem Exec_of_plan_error (w : World) (b : buildCmd) (group : BuildpackGroup) (err : LibError)
    (hG : w.ReadGroup b.groupPath = .ok group) (hP : w.DecodeFile b.planPath = .error err) :
    b.Exec w =
      { cmd := b, trace := [.ReadGroup b.groupPath, .DecodeFile b.planPath],
        result := .returned (some (.errorFail ⟨err, .CodeFailed, ["parse detect plan"]⟩)) } := by
  simp [buildCmd.Exec, buildCmd.readData, hG, hP, FailErr, FailErrCode]

/-- The run of `Exec` when the verifier rejects the group. -/
theorem Exec_of_verify_error (w : World) (b : buildCmd) (group : BuildpackGroup)
    (plan : BuildPlan) (err : GoError)
    (hG : w.ReadGroup b.groupPath = .ok group) (hP : w.DecodeFile b.planPath = .ok plan)
    (hV : w.verifyBuildpackApis group = some err) :
    b.Exec w =
      { cmd := b, trace := [.ReadGroup b.groupPath, .DecodeFile b.planPath],
        result := .returned (some err) } := by
  simp [buildCmd.Exec, buildCmd.readData, hG, hP, hV]

/-- The run of `Exec` when the three gates pass: the two reads, then `build`. -/
theorem Exec_of_gates_passed (w : World) (b : buildCmd) (group : BuildpackGroup)
    (plan : BuildPlan)
    (hG : w.ReadGroup b.groupPath = .ok group) (hP : w.DecodeFile b.planPath = .ok plan)
    (hV : w.verifyBuildpackApis group = none) :
    b.Exec w =
      { cmd := b,
        trace := [.ReadGroup b.groupPath, .DecodeFile b.planPath]
          ++ (b.tobuildArgs.build w group plan).1,
        result := (b.tobuildArgs.build w group plan).2 } := by
  simp [buildCmd.Exec, buildCmd.readData, hG, hP, hV]

/-! ## The claims -/

/-- C1: when `build` reaches the engine (the buildpacks directory resolves and
the platform API parses), it calls the engine on the builder it made, and it
returns an error with the code `CodeFailedBuildWithErrors` if and only if the
engine returned a `*lifecycle.Error` of type `ErrTypeBuildpack`; the error
reported is then that error's cause.  Every other engine error is returned
itself, with the code `CodeBuildError`. -/
theorem build_engine_error_classification (w : World) (ba : buildArgs)
    (group : BuildpackGroup) (plan : BuildPlan) (dir : String) (v : APIVersion)
    (hAbs : w.Abs ba.buildpacksDir = .ok dir) (hVer : w.NewVersion ba.platformAPI = some v) :
    Event.Build (newBuilder w ba dir v group plan) ∈ (ba.build w group plan).1 ∧
    ((∃ e, (ba.build w group plan).2 = .returned (some (.errorFail e))
          ∧ e.Code = .CodeFailedBuildWithErrors)
      ↔ ∃ root, w.Build (newBuilder w ba dir v group plan)
          = .error (.lifecycleError root .ErrTypeBuildpack)) ∧
    (∀ root, w.Build (newBuilder w ba dir v group plan)
          = .error (.lifecycleError root .ErrTypeBuildpack) →
        (ba.build w group plan).2
          = .returned (some (.errorFail ⟨root, .CodeFailedBuildWithErrors, ["build"]⟩))) ∧
    (∀ err, w.Build (newBuilder w ba dir v group plan) = .error err →
        (∀ root, err ≠ .lifecycleError root .ErrTypeBuildpack) →
        (ba.build w group plan).2
          = .returned (some (.errorFail ⟨err, .CodeBuildError, ["build"]⟩))) := by
  have hbp := build_of_buildpack_error w ba group plan dir v
  have hother := build_of_other_error w ba group plan dir v
  refine ⟨?_, ⟨?_, ?_⟩, ?_, ?_⟩
  · rcases hB : w.Build (newBuilder w ba dir v group plan) with err | md
    · by_cases hx : ∃ root, err = .lifecycleError root .ErrTypeBuildpack
      · obtain ⟨root, rfl⟩ := hx
        rw [hbp root hAbs hVer hB]; simp
      · rw [hother err hAbs hVer hB (fun root h => hx ⟨root, h⟩)]; simp
    · rcases hW : w.WriteTOML (w.GetMetadataFilePath ba.layersDir) md with _ | werr
      · rw [build_of_success w ba group plan dir v md hAbs hVer hB hW]; simp
      · rw [build_of_write_error w ba group plan dir v md werr hAbs hVer hB hW]; simp
  · rintro ⟨e, he, hc⟩
    rcases hB : w.Build (newBuilder w ba dir v group plan) with err | md
    · by_cases hx : ∃ root, err = .lifecycleError root .ErrTypeBuildpack
      · obtain ⟨root, rfl⟩ := hx
        exact ⟨root, rfl⟩
      · rw [hother err hAbs hVer hB (fun root h => hx ⟨root, h⟩)] at he
        simp at he
        rw [← he] at hc
        simp at hc
    · rcases hW : w.WriteTOML (w.GetMetadataFilePath ba.layersDir) md with _ | werr
      · rw [build_of_success w ba group plan dir v md hAbs hVer hB hW] at he
        simp at he
      · rw [build_of_write_error w ba group plan dir v md werr hAbs hVer hB hW] at he
        simp at he
        rw [← he] at hc
        simp at hc
  · rintro ⟨root, hB⟩
    exact ⟨_, by rw [hbp root hAbs hVer hB], rfl⟩
  · intro root hB
    rw [hbp root hAbs hVer hB]
  · intro err hB hne
    rw [hother err hAbs hVer hB hne]

/-- C1, at a world whose engine reports a buildpack failure: the cause is
returned with the buildpack code. -/
theorem build_engine_error_classification_witness :
    (sampleCmd.tobuildArgs.build buildpackFailureWorld sampleGroup samplePlan).2
      = .returned (some (.errorFail
          ⟨.errorString "exit status 1", .CodeFailedBuildWithErrors, ["build"]⟩)) :=
  (build_engine_error_classification buildpackFailureWorld sampleCmd.tobuildArgs sampleGroup
    samplePlan "/cnb/buildpacks" ⟨0, 4⟩ rfl rfl).2.2.1 (.errorString "exit status 1") rfl

/-- C2: with `nargs` different from zero, `Args` returns the invalid-arguments
error "received unexpected arguments", leaves every field of the command as it
was and calls no collaborator, so that no config file is read. -/
theorem Args_unexpected_arguments (w : World) (b : buildCmd) (nargs : Int)
    (args : List String) (h : nargs ≠ 0) :
    (b.Args w nargs args).result
      = .returned (some (.errorFail
          ⟨.errorString "received unexpected arguments", .CodeInvalidArgs, ["parse arguments"]⟩)) ∧
    (b.Args w nargs args).cmd = b ∧
    (b.Args w nargs args).trace = [] ∧
    configReads (b.Args w nargs args).trace = [] := by
  simp [buildCmd.Args, h, FailErrCode, configReads]

/-- C2, at one positional argument and placeholder paths: nothing is resolved. -/
theorem Args_unexpected_arguments_witness :
    ((({ sampleCmd with groupPath := "<layers>/group.toml" } : buildCmd).Args
        sampleWorld 1 ["extra"]).cmd.groupPath = "<layers>/group.toml") :=
  congrArg buildCmd.groupPath
    (Args_unexpected_arguments sampleWorld { sampleCmd with groupPath := "<layers>/group.toml" }
      1 ["extra"] (by decide)).2.1

/-- C3, refuted as stated: with `nargs = 0`, a placeholder group path and an
empty platform API version, `cmd.DefaultGroupPath` panics; `Args` does not
return nil and resolves no path. -/
theorem Args_panics_on_placeholder_with_empty_platform_api :
    placeholderEmptyAPICmd.groupPath = sampleWorld.PlaceholderGroupPath ∧
    (placeholderEmptyAPICmd.Args sampleWorld 0 []).result = .panicked ∧
    (placeholderEmptyAPICmd.Args sampleWorld 0 []).result ≠ .returned none := by
  decide

/-- C3, amended: with `nargs = 0`, whenever the default of every path that is a
placeholder can be computed (`g` for the group, `p` for the plan), `Args`
returns nil and calls no collaborator; the group path becomes `g` if it was the
placeholder and is kept otherwise, and likewise the plan path with `p`; the
`buildArgs` fields are kept.  Where a path is the placeholder and the
computation of its default panics, `Args` panics.  `Args` never returns an
error, and two commands with the same platform API and layers directory that
both return resolve a placeholder to the same path. -/
theorem Args_resolves_placeholders (w : World) (b : buildCmd) (args : List String) :
    (∀ g p,
      (b.groupPath = w.PlaceholderGroupPath →
        w.DefaultGroupPath b.platformAPI b.layersDir = some g) →
      (b.planPath = w.PlaceholderPlanPath →
        w.DefaultPlanPath b.platformAPI b.layersDir = some p) →
      (b.Args w 0 args).result = .returned none ∧
      (b.Args w 0 args).trace = [] ∧
      (b.Args w 0 args).cmd.groupPath
        = (if b.groupPath = w.PlaceholderGroupPath then g else b.groupPath) ∧
      (b.Args w 0 args).cmd.planPath
        = (if b.planPath = w.PlaceholderPlanPath then p else b.planPath) ∧
      (b.Args w 0 args).cmd.tobuildArgs = b.tobuildArgs) ∧
    (b.groupPath = w.PlaceholderGroupPath →
      w.DefaultGroupPath b.platformAPI b.layersDir = none →
      (b.Args w 0 args).result = .panicked ∧ (b.Args w 0 args).trace = []) ∧
    (b.planPath = w.PlaceholderPlanPath →
      w.DefaultPlanPath b.platformAPI b.layersDir = none →
      (b.Args w 0 args).result = .panicked ∧ (b.Args w 0 args).trace = []) ∧
    (∀ e, (b.Args w 0 args).result ≠ .returned (some e)) ∧
    (∀ (b2 : buildCmd) (args2 : List String),
      b2.platformAPI = b.platformAPI → b2.layersDir = b.layersDir →
      (b.Args w 0 args).result = .returned none →
      (b2.Args w 0 args2).result = .returned none →
      (b.groupPath = w.PlaceholderGroupPath → b2.groupPath = w.PlaceholderGroupPath →
        (b2.Args w 0 args2).cmd.groupPath = (b.Args w 0 args).cmd.groupPath) ∧
      (b.planPath = w.PlaceholderPlanPath → b2.planPath = w.PlaceholderPlanPath →
        (b2.Args w 0 args2).cmd.planPath = (b.Args w 0 args).cmd.planPath)) := by
  have key : ∀ (c : buildCmd) (a : List String),
      (c.Args w 0 a).result = .returned none →
      (c.groupPath = w.PlaceholderGroupPath →
        w.DefaultGroupPath c.platformAPI c.layersDir = some (c.Args w 0 a).cmd.groupPath) ∧
      (c.planPath = w.PlaceholderPlanPath →
        w.DefaultPlanPath c.platformAPI c.layersDir = some (c.Args w 0 a).cmd.planPath) := by
    intro c a
    by_cases h1 : c.groupPath = w.PlaceholderGroupPath <;>
      by_cases h2 : c.planPath = w.PlaceholderPlanPath <;>
      rcases hg : w.DefaultGroupPath c.platformAPI c.layersDir with _ | g <;>
      rcases hp : w.DefaultPlanPath c.platformAPI c.layersDir with _ | p <;>
      simp [buildCmd.Args, buildCmd.resolvePlanPath, h1, h2, hg, hp]
  refine ⟨?_, ?_, ?_, ?_, ?_⟩
  · intro g p hg hp
    by_cases h1 : b.groupPath = w.PlaceholderGroupPath <;>
      by_cases h2 : b.planPath = w.PlaceholderPlanPath <;>
      simp [buildCmd.Args, buildCmd.resolvePlanPath, h1, h2, hg, hp]
  · intro h1 hg
    simp [buildCmd.Args, h1, hg]
  · intro h2 hp
    by_cases h1 : b.groupPath = w.PlaceholderGroupPath <;>
      rcases hg : w.DefaultGroupPath b.platformAPI b.layersDir with _ | g <;>
      simp [buildCmd.Args, buildCmd.resolvePlanPath, h1, h2, hg, hp]
  · intro e
    by_cases h1 : b.groupPath = w.PlaceholderGroupPath <;>
      by_cases h2 : b.planPath = w.PlaceholderPlanPath <;>
      rcases hg : w.DefaultGroupPath b.platformAPI b.layersDir with _ | g <;>
      rcases hp : w.DefaultPlanPath b.platformAPI b.layersDir with _ | p <;>
      simp [buildCmd.Args, buildCmd.resolvePlanPath, h1, h2, hg, hp]
  · intro b2 args2 hapi hlayers hr hr2
    obtain ⟨kg, kp⟩ := key b args hr
    obtain ⟨kg2, kp2⟩ := key b2 args2 hr2
    rw [hapi, hlayers] at kg2 kp2
    refine ⟨fun hb hb2 => ?_, fun hb hb2 => ?_⟩
    · have := (kg2 hb2).symm.trans (kg hb)
      exact Option.some.inj this
    · have := (kp2 hb2).symm.trans (kp hb)
      exact Option.some.inj this

/-- C3 amended, at platform API "0.4" with a placeholder group path and a plan
path given: the group path is resolved to the working directory and the plan
path is kept. -/
theorem Args_resolves_placeholders_witness :
    (placeholderGroupCmd.Args sampleWorld 0 []).result = .returned none ∧
    (placeholderGroupCmd.Args sampleWorld 0 []).cmd.groupPath = "group.toml" ∧
    (placeholderGroupCmd.Args sampleWorld 0 []).cmd.planPath = "my/plan.toml" :=
  ⟨((Args_resolves_placeholders sampleWorld placeholderGroupCmd []).1 "group.toml" ""
      (fun _ => by decide) (fun h => absurd h (by decide))).1,
   ((Args_resolves_placeholders sampleWorld placeholderGroupCmd []).1 "group.toml" ""
      (fun _ => by decide) (fun h => absurd h (by decide))).2.2.1.trans (by decide),
   ((Args_resolves_placeholders sampleWorld placeholderGroupCmd []).1 "group.toml" ""
      (fun _ => by decide) (fun h => absurd h (by decide))).2.2.2.1.trans (by decide)⟩

/-- C4: a gate failure ends `Exec` at that gate.  If reading the group fails,
the only call made is that read (the plan file is not decoded) and `Exec`
returns the read error wrapped by `FailErr`; if decoding the plan fails, the
calls are the two reads and the decode error is returned wrapped; if the
verifier rejects the group, the calls are the two reads and the verifier's error
is returned as it is.  In each case the engine is called zero times and no
metadata is written. -/
theorem Exec_gate_failure (w : World) (b : buildCmd) :
    (∀ err, w.ReadGroup b.groupPath = .error err →
      b.Exec w =
        { cmd := b, trace := [.ReadGroup b.groupPath],
          result := .returned
            (some (.errorFail ⟨err, .CodeFailed, ["read buildpack group"]⟩)) } ∧
      engineCalls (b.Exec w).trace = 0 ∧ metadataWrites (b.Exec w).trace = []) ∧
    (∀ group err, w.ReadGroup b.groupPath = .ok group →
      w.DecodeFile b.planPath = .error err →
      b.Exec w =
        { cmd := b, trace := [.ReadGroup b.groupPath, .DecodeFile b.planPath],
          result := .returned (some (.errorFail ⟨err, .CodeFailed, ["parse detect plan"]⟩)) } ∧
      engineCalls (b.Exec w).trace = 0 ∧ metadataWrites (b.Exec w).trace = []) ∧
    (∀ group plan err, w.ReadGroup b.groupPath = .ok group →
      w.DecodeFile b.planPath = .ok plan → w.verifyBuildpackApis group = some err →
      b.Exec w =
        { cmd := b, trace := [.ReadGroup b.groupPath, .DecodeFile b.planPath],
          result := .returned (some err) } ∧
      engineCalls (b.Exec w).trace = 0 ∧ metadataWrites (b.Exec w).trace = []) := by
  refine ⟨fun err hG => ?_, fun group err hG hP => ?_, fun group plan err hG hP hV => ?_⟩
  · rw [Exec_of_group_error w b err hG]
    simp [engineCalls, metadataWrites]
  · rw [Exec_of_plan_error w b group err hG hP]
    simp [engineCalls, metadataWrites]
  · rw [Exec_of_verify_error w b group plan err hG hP hV]
    simp [engineCalls, metadataWrites]

/-- C4, at a missing group file, at a malformed plan file and at a rejected
group: the engine is not called. -/
theorem Exec_gate_failure_witness :
    (sampleCmd.Exec noGroupWorld).trace = [.ReadGroup "/layers/group.toml"] ∧
    engineCalls (sampleCmd.Exec badPlanWorld).trace = 0 ∧
    engineCalls (sampleCmd.Exec incompatibleWorld).trace = 0 :=
  ⟨congrArg Ran.trace
      ((Exec_gate_failure noGroupWorld sampleCmd).1
        (.errorString "open group.toml: no such file") rfl).1,
   ((Exec_gate_failure badPlanWorld sampleCmd).2.1 sampleGroup
      (.errorString "toml: expected key") rfl rfl).2.1,
   ((Exec_gate_failure incompatibleWorld sampleCmd).2.2 unsupportedGroup samplePlan
      (.lib (.errorString "buildpack API version is incompatible with the lifecycle"))
      rfl rfl (by decide)).2.1⟩

/-- C5, refuted as stated: in a privileged process whose group and plan files
decode, whose group the verifier accepts, whose buildpacks directory resolves
and whose platform API parses, `Exec` calls the engine once and returns nil. -/
theorem Exec_privileged_reaches_engine :
    rootWorld.IsPrivileged = true ∧
    engineCalls (sampleCmd.Exec rootWorld).trace = 1 ∧
    (sampleCmd.Exec rootWorld).result = .returned none := by
  decide

/-- C5, amended: in a privileged process `Privileges` returns the error
"refusing to run as root" with the generic failure code, keeps the command and
calls no collaborator.  `Exec` does not ask the privilege query: its run is the
same whether the process is privileged or not, and when the group and plan
files decode, the verifier accepts the group, the buildpacks directory resolves
and the platform API parses, `Exec` calls the engine exactly once although the
process is privileged. -/
theorem Privileges_gate_separate_from_Exec (w : World) (b : buildCmd)
    (h : w.IsPrivileged = true) :
    (b.Privileges w).result
      = .returned (some (.errorFail
          ⟨.errorString "refusing to run as root", .CodeFailed, ["build"]⟩)) ∧
    (b.Privileges w).cmd = b ∧
    (b.Privileges w).trace = [] ∧
    b.Exec w = b.Exec { w with IsPrivileged := false } ∧
    (∀ group plan dir v, w.ReadGroup b.groupPath = .ok group →
      w.DecodeFile b.planPath = .ok plan → w.verifyBuildpackApis group = none →
      w.Abs b.buildpacksDir = .ok dir → w.NewVersion b.platformAPI = some v →
      engineCalls (b.Exec w).trace = 1 ∧
      engineContexts (b.Exec w).trace = [newBuilder w b.tobuildArgs dir v group plan]) := by
  refine ⟨?_, ?_, ?_, ?_, ?_⟩
  · simp [buildCmd.Privileges, h, FailErr, FailErrCode]
  · simp [buildCmd.Privileges, h]
  · simp [buildCmd.Privileges, h]
  · rfl
  · intro group plan dir v hG hP hV hAbs hVer
    rw [Exec_of_gates_passed w b group plan hG hP hV]
    rcases build_cases w b.tobuildArgs group plan with ⟨_, h1, _⟩ | ⟨_, _, h2, _⟩ |
      ⟨d, u, _, h1, h2, _, hb⟩ | ⟨d, u, _, h1, h2, _, _, hb⟩ |
      ⟨d, u, _, _, h1, h2, _, _, hb⟩ | ⟨d, u, _, h1, h2, _, _, hb⟩
    · rw [hAbs] at h1; simp at h1
    · rw [hVer] at h2; simp at h2
    all_goals
      rw [hAbs] at h1; rw [hVer] at h2
      simp only [Except.ok.injEq, Option.some.injEq] at h1 h2
      subst h1; subst h2
      rw [hb]; simp [engineCalls, engineContexts]

/-- C5 amended, at the privileged world: `Privileges` refuses, and `Exec` calls
the engine once all the same. -/
theorem Privileges_gate_separate_from_Exec_witness :
    rootWorld.IsPrivileged = true ∧
    (sampleCmd.Privileges rootWorld).result
      = .returned (some (.errorFail
          ⟨.errorString "refusing to run as root", .CodeFailed, ["build"]⟩)) ∧
    engineCalls (sampleCmd.Exec rootWorld).trace = 1 :=
  ⟨rfl, (Privileges_gate_separate_from_Exec rootWorld sampleCmd rfl).1,
    ((Privileges_gate_separate_from_Exec rootWorld sampleCmd rfl).2.2.2.2
      sampleGroup samplePlan "/cnb/buildpacks" ⟨0, 4⟩ rfl rfl (by decide) rfl rfl).1⟩

/-- C6: `Privileges` returns an error exactly when `IsPrivileged` reports true;
the error is then `FailErr` of "refusing to run as root", whose code is the
generic one and neither the invalid-arguments nor the buildpack-failure code;
otherwise the result is nil.  The command's fields are kept and no collaborator
is called. -/
theorem Privileges_error_iff_privileged (w : World) (b : buildCmd) :
    ((∃ e, (b.Privileges w).result = .returned (some e)) ↔ w.IsPrivileged = true) ∧
    (b.Privileges w).result
      = (if w.IsPrivileged = true then
          .returned (some (.errorFail (FailErr (.errorString "refusing to run as root") ["build"])))
        else .returned none) ∧
    (FailErr (.errorString "refusing to run as root") ["build"]).Err
      = .errorString "refusing to run as root" ∧
    (FailErr (.errorString "refusing to run as root") ["build"]).Code = .CodeFailed ∧
    ExitCode.CodeFailed ≠ .CodeInvalidArgs ∧
    ExitCode.CodeFailed ≠ .CodeFailedBuildWithErrors ∧
    (b.Privileges w).cmd = b ∧
    (b.Privileges w).trace = [] := by
  cases h : w.IsPrivileged <;> simp [buildCmd.Privileges, h, FailErr, FailErrCode]

/-- C7, refuted as stated: the buildpacks directory resolves, the platform API
version is empty, and the engine is called zero times, not once. -/
theorem build_resolved_dir_without_engine_call :
    sampleWorld.Abs emptyAPICmd.buildpacksDir = .ok "/cnb/buildpacks" ∧
    engineCalls (emptyAPICmd.tobuildArgs.build sampleWorld sampleGroup samplePlan).1 = 0 ∧
    engineCalls (emptyAPICmd.tobuildArgs.build sampleWorld sampleGroup samplePlan).1 ≠ 1 :=
  ⟨rfl, by decide, by decide⟩

/-- C7, amended: `build` never calls the engine more than once.  It calls it
exactly once when the buildpacks directory resolves and the platform API
parses, and the context of that call carries the given group and plan and the
config's application, layers and platform directories.  It calls it zero times
when the resolution fails, and then returns the resolution error with the code
`CodeBuildError`; and zero times when the directory resolves and the platform
API does not parse, where `MustParse` panics. -/
theorem build_engine_call_count (w : World) (ba : buildArgs) (group : BuildpackGroup)
    (plan : BuildPlan) :
    engineCalls (ba.build w group plan).1 ≤ 1 ∧
    (∀ dir v, w.Abs ba.buildpacksDir = .ok dir → w.NewVersion ba.platformAPI = some v →
      engineCalls (ba.build w group plan).1 = 1 ∧
      engineContexts (ba.build w group plan).1 = [newBuilder w ba dir v group plan] ∧
      (newBuilder w ba dir v group plan).Group = group ∧
      (newBuilder w ba dir v group plan).Plan = plan ∧
      (newBuilder w ba dir v group plan).AppDir = ba.appDir ∧
      (newBuilder w ba dir v group plan).LayersDir = ba.layersDir ∧
      (newBuilder w ba dir v group plan).PlatformDir = ba.platformDir) ∧
    (∀ err, w.Abs ba.buildpacksDir = .error err →
      engineCalls (ba.build w group plan).1 = 0 ∧
      (ba.build w group plan).2
        = .returned (some (.errorFail ⟨err, .CodeBuildError, ["build"]⟩))) ∧
    (∀ dir, w.Abs ba.buildpacksDir = .ok dir → w.NewVersion ba.platformAPI = none →
      engineCalls (ba.build w group plan).1 = 0 ∧
      (ba.build w group plan).2 = .panicked) := by
  refine ⟨?_, ?_, ?_, ?_⟩
  · rcases build_cases w ba group plan with ⟨_, _, h⟩ | ⟨_, _, _, h⟩ | ⟨_, _, _, _, _, _, h⟩ |
      ⟨_, _, _, _, _, _, _, h⟩ | ⟨_, _, _, _, _, _, _, _, h⟩ | ⟨_, _, _, _, _, _, _, h⟩ <;>
      rw [h] <;> simp [engineCalls]
  · intro dir v hAbs hVer
    refine ⟨?_, ?_, rfl, rfl, rfl, rfl, rfl⟩
    · rcases build_cases w ba group plan with ⟨_, h1, _⟩ | ⟨_, _, h2, _⟩ |
        ⟨_, _, _, _, _, _, h⟩ | ⟨_, _, _, _, _, _, _, h⟩ | ⟨_, _, _, _, _, _, _, _, h⟩ |
        ⟨_, _, _, _, _, _, _, h⟩
      · rw [hAbs] at h1; simp at h1
      · rw [hVer] at h2; simp at h2
      all_goals rw [h]; simp [engineCalls]
    · rcases build_cases w ba group plan with ⟨_, h1, _⟩ | ⟨_, _, h2, _⟩ |
        ⟨d, u, _, h1, h2, _, h⟩ | ⟨d, u, _, h1, h2, _, _, h⟩ | ⟨d, u, _, _, h1, h2, _, _, h⟩ |
        ⟨d, u, _, h1, h2, _, _, h⟩
      · rw [hAbs] at h1; simp at h1
      · rw [hVer] at h2; simp at h2
      all_goals
        rw [hAbs] at h1; rw [hVer] at h2
        simp only [Except.ok.injEq, Option.some.injEq] at h1 h2
        subst h1; subst h2
        rw [h]; simp [engineContexts]
  · intro err hAbs
    rw [build_of_abs_error w ba group plan err hAbs]
    simp [engineCalls]
  · intro dir hAbs hVer
    rw [build_of_parse_failure w ba group plan dir hAbs hVer]
    simp [engineCalls]

/-- C7 amended, at the sample world: one engine call, with the one-entry group. -/
theorem build_engine_call_count_witness :
    engineCalls (sampleCmd.tobuildArgs.build sampleWorld sampleGroup samplePlan).1 = 1 ∧
    engineCalls (sampleCmd.tobuildArgs.build noCwdWorld sampleGroup samplePlan).1 = 0 ∧
    engineCalls (emptyAPICmd.tobuildArgs.build sampleWorld sampleGroup samplePlan).1 = 0 :=
  ⟨((build_engine_call_count sampleWorld sampleCmd.tobuildArgs sampleGroup samplePlan).2.1
      "/cnb/buildpacks" ⟨0, 4⟩ rfl rfl).1,
   ((build_engine_call_count noCwdWorld sampleCmd.tobuildArgs sampleGroup samplePlan).2.2.1
      (.errorString "getwd: no such file or directory") rfl).1,
   ((build_engine_call_count sampleWorld emptyAPICmd.tobuildArgs sampleGroup samplePlan).2.2.2
      "/cnb/buildpacks" rfl rfl).1⟩

/-- C8: `build` writes metadata exactly when the engine succeeded.  If the
engine was called and returned metadata, the writes of the run are the single
write of that very metadata to `GetMetadataFilePath layersDir`; if the engine
was not called or failed, nothing is written.  And `build` returns nil exactly
when the engine was called, succeeded, and the write of its metadata
succeeded. -/
theorem build_writes_metadata_iff_engine_succeeded (w : World) (ba : buildArgs)
    (group : BuildpackGroup) (plan : BuildPlan) :
    (∀ builder md, Event.Build builder ∈ (ba.build w group plan).1 →
      w.Build builder = .ok md →
      metadataWrites (ba.build w group plan).1 = [(w.GetMetadataFilePath ba.layersDir, md)]) ∧
    ((¬ ∃ builder md, Event.Build builder ∈ (ba.build w group plan).1 ∧
        w.Build builder = .ok md) →
      metadataWrites (ba.build w group plan).1 = []) ∧
    ((ba.build w group plan).2 = .returned none ↔
      ∃ builder md, Event.Build builder ∈ (ba.build w group plan).1 ∧
        w.Build builder = .ok md ∧
        w.WriteTOML (w.GetMetadataFilePath ba.layersDir) md = none) := by
  rcases build_cases w ba group plan with ⟨_, _, h⟩ | ⟨_, _, _, h⟩ | ⟨dir, v, _, _, _, hB, h⟩ |
    ⟨dir, v, _, _, _, hB, _, h⟩ | ⟨_, _, _, _, _, _, hB, hW, h⟩ | ⟨_, _, _, _, _, hB, hW, h⟩
  · rw [h]; simp [metadataWrites]
  · rw [h]; simp [metadataWrites]
  · rw [h]
    have hfail : ∀ builder md, Event.Build builder ∈ [Event.Build (newBuilder w ba dir v group plan)] →
        w.Build builder ≠ .ok md := by
      intro builder md hmem hok
      simp only [List.mem_singleton, Event.Build.injEq] at hmem
      rw [hmem, hB] at hok
      exact absurd hok (by simp)
    refine ⟨fun builder md hmem hok => absurd hok (hfail builder md hmem), fun _ => ?_, ?_⟩
    · simp [metadataWrites]
    · constructor
      · intro hr
        exact absurd hr (by simp)
      · rintro ⟨builder, md, hmem, hok, _⟩
        exact absurd hok (hfail builder md hmem)
  · rw [h]
    have hfail : ∀ builder md, Event.Build builder ∈ [Event.Build (newBuilder w ba dir v group plan)] →
        w.Build builder ≠ .ok md := by
      intro builder md hmem hok
      simp only [List.mem_singleton, Event.Build.injEq] at hmem
      rw [hmem, hB] at hok
      exact absurd hok (by simp)
    refine ⟨fun builder md hmem hok => absurd hok (hfail builder md hmem), fun _ => ?_, ?_⟩
    · simp [metadataWrites]
    · constructor
      · intro hr
        exact absurd hr (by simp)
      · rintro ⟨builder, md, hmem, hok, _⟩
        exact absurd hok (hfail builder md hmem)
  · rw [h]
    refine ⟨?_, ?_, ?_⟩
    · intro builder md hmem hok
      simp only [List.mem_cons, Event.Build.injEq, List.mem_singleton, reduceCtorEq,
        or_false, List.not_mem_nil] at hmem
      subst hmem
      rw [hB] at hok
      simp only [Except.ok.injEq] at hok
      subst hok
      simp [metadataWrites]
    · intro hno
      exact absurd ⟨_, _, by simp, hB⟩ hno
    · simp only [Outcome.returned.injEq, reduceCtorEq, false_iff, not_exists, not_and]
      intro builder md hmem hok
      simp only [List.mem_cons, Event.Build.injEq, List.mem_singleton, reduceCtorEq,
        or_false, List.not_mem_nil] at hmem
      subst hmem
      rw [hB] at hok
      simp only [Except.ok.injEq] at hok
      subst hok
      rw [hW]; simp
  · rw [h]
    refine ⟨?_, ?_, ?_⟩
    · intro builder md hmem hok
      simp only [List.mem_cons, Event.Build.injEq, List.mem_singleton, reduceCtorEq,
        or_false, List.not_mem_nil] at hmem
      subst hmem
      rw [hB] at hok
      simp only [Except.ok.injEq] at hok
      subst hok
      simp [metadataWrites]
    · intro hno
      exact absurd ⟨_, _, by simp, hB⟩ hno
    · simp only [true_iff]
      exact ⟨_, _, by simp, hB, hW⟩

/-- C8, at the sample world and at a failing engine: one write of the engine's
metadata to the path under the layers directory, and no write. -/
theorem build_writes_metadata_iff_engine_succeeded_witness :
    metadataWrites (sampleCmd.tobuildArgs.build sampleWorld sampleGroup samplePlan).1
      = [("/layers/config/metadata.toml", sampleMetadata)] ∧
    metadataWrites (sampleCmd.tobuildArgs.build engineFailureWorld sampleGroup samplePlan).1
      = [] :=
  ⟨(build_writes_metadata_iff_engine_succeeded sampleWorld sampleCmd.tobuildArgs sampleGroup
      samplePlan).1
      (newBuilder sampleWorld sampleCmd.tobuildArgs "/cnb/buildpacks" ⟨0, 4⟩ sampleGroup
        samplePlan)
      sampleMetadata (by decide) rfl,
   (build_writes_metadata_iff_engine_succeeded engineFailureWorld sampleCmd.tobuildArgs
      sampleGroup samplePlan).2.1
      (by rintro ⟨builder, md, _, hok⟩; exact absurd hok (by simp [engineFailureWorld]))⟩

/-- C9: when the engine succeeds and the write of its metadata fails, `build`
returns `FailErr` of the write error with the action "write build metadata";
its code is the generic one, neither `CodeBuildError` nor
`CodeFailedBuildWithErrors`, and the result differs from the result of every
run of `build` in which the engine failed. -/
theorem build_write_failure_reported_distinctly (w : World) (ba : buildArgs)
    (group : BuildpackGroup) (plan : BuildPlan) (dir : String) (v : APIVersion)
    (md : BuildMetadata) (werr : LibError)
    (hAbs : w.Abs ba.buildpacksDir = .ok dir) (hVer : w.NewVersion ba.platformAPI = some v)
    (hB : w.Build (newBuilder w ba dir v group plan) = .ok md)
    (hW : w.WriteTOML (w.GetMetadataFilePath ba.layersDir) md = some werr) :
    (ba.build w group plan).2
      = .returned (some (.errorFail (FailErr werr ["write build metadata"]))) ∧
    (FailErr werr ["write build metadata"]).Err = werr ∧
    (FailErr werr ["write build metadata"]).Action = ["write build metadata"] ∧
    (FailErr werr ["write build metadata"]).Code ≠ .CodeBuildError ∧
    (FailErr werr ["write build metadata"]).Code ≠ .CodeFailedBuildWithErrors ∧
    (∀ (w2 : World) (ba2 : buildArgs) (group2 : BuildpackGroup) (plan2 : BuildPlan)
        (dir2 : String) (v2 : APIVersion) (err2 : LibError),
      w2.Abs ba2.buildpacksDir = .ok dir2 → w2.NewVersion ba2.platformAPI = some v2 →
      w2.Build (newBuilder w2 ba2 dir2 v2 group2 plan2) = .error err2 →
      (ba2.build w2 group2 plan2).2 ≠ (ba.build w group plan).2) := by
  rw [build_of_write_error w ba group plan dir v md werr hAbs hVer hB hW]
  refine ⟨by simp [FailErr, FailErrCode], rfl, rfl, by simp [FailErr, FailErrCode],
    by simp [FailErr, FailErrCode], ?_⟩
  intro w2 ba2 group2 plan2 dir2 v2 err2 hAbs2 hVer2 hB2
  by_cases hx : ∃ root, err2 = .lifecycleError root .ErrTypeBuildpack
  · obtain ⟨root, rfl⟩ := hx
    rw [build_of_buildpack_error w2 ba2 group2 plan2 dir2 v2 root hAbs2 hVer2 hB2]
    simp
  · rw [build_of_other_error w2 ba2 group2 plan2 dir2 v2 err2 hAbs2 hVer2 hB2
      (fun root h => hx ⟨root, h⟩)]
    simp

/-- C9, at a full disk: the write error comes back with the generic code. -/
theorem build_write_failure_reported_distinctly_witness :
    (sampleCmd.tobuildArgs.build writeFailureWorld sampleGroup samplePlan).2
      = .returned (some (.errorFail
          ⟨.errorString "no space left on device", .CodeFailed, ["write build metadata"]⟩)) :=
  (build_write_failure_reported_distinctly writeFailureWorld sampleCmd.tobuildArgs sampleGroup
    samplePlan "/cnb/buildpacks" ⟨0, 4⟩ sampleMetadata (.errorString "no space left on device")
    rfl rfl rfl rfl).1

/-- C10, refuted as stated: with an empty platform API version and a buildpacks
directory that resolves, `build` panics; it returns neither nil nor an
error. -/
theorem build_panics_on_empty_platform_api :
    (emptyAPICmd.tobuildArgs.build sampleWorld sampleGroup samplePlan).2 = .panicked ∧
    ¬ ∃ r, (emptyAPICmd.tobuildArgs.build sampleWorld sampleGroup samplePlan).2
        = .returned r := by
  refine ⟨by decide, ?_⟩
  rintro ⟨r, hr⟩
  have hp : (emptyAPICmd.tobuildArgs.build sampleWorld sampleGroup samplePlan).2 = .panicked := by
    decide
  rw [hp] at hr
  exact absurd hr (by simp)

/-- C10, amended: where the platform API version parses, or the buildpacks
directory does not resolve, `build` returns, and it returns either nil, having
written the engine's metadata once, or a `*cmd.ErrorFail`, never both.  Where
the directory resolves and the version does not parse, `build` panics before
any collaborator is called. -/
theorem build_returns_when_platform_api_parses (w : World) (ba : buildArgs)
    (group : BuildpackGroup) (plan : BuildPlan) :
    ((∃ v, w.NewVersion ba.platformAPI = some v) ∨ (∃ err, w.Abs ba.buildpacksDir = .error err) →
      (((ba.build w group plan).2 = .returned none ∧
          ∃ md, metadataWrites (ba.build w group plan).1
              = [(w.GetMetadataFilePath ba.layersDir, md)] ∧
            w.WriteTOML (w.GetMetadataFilePath ba.layersDir) md = none) ∨
        (∃ e, (ba.build w group plan).2 = .returned (some (.errorFail e)))) ∧
      ¬ ((ba.build w group plan).2 = .returned none ∧
        ∃ e, (ba.build w group plan).2 = .returned (some (.errorFail e)))) ∧
    (∀ dir, w.Abs ba.buildpacksDir = .ok dir → w.NewVersion ba.platformAPI = none →
      ba.build w group plan = ([], .panicked)) := by
  refine ⟨fun hyp => ?_, fun dir hAbs hVer => build_of_parse_failure w ba group plan dir hAbs hVer⟩
  rcases build_cases w ba group plan with ⟨_, _, h⟩ | ⟨_, hAbs, hVer, h⟩ | ⟨_, _, _, _, _, _, h⟩ |
    ⟨_, _, _, _, _, _, _, h⟩ | ⟨_, _, _, _, _, _, _, _, h⟩ | ⟨_, _, md, _, _, _, hW, h⟩
  · rw [h]; simp
  · rcases hyp with ⟨v, hv⟩ | ⟨err, herr⟩
    · rw [hVer] at hv; simp at hv
    · rw [hAbs] at herr; simp at herr
  · rw [h]; simp
  · rw [h]; simp
  · rw [h]; simp
  · rw [h]
    refine ⟨Or.inl ⟨rfl, md, by simp [metadataWrites], hW⟩, ?_⟩
    simp

/-- C10 amended, at the sample world: `build` returns nil after one write. -/
theorem build_returns_when_platform_api_parses_witness :
    (sampleCmd.tobuildArgs.build sampleWorld sampleGroup samplePlan).2 = .returned none ∨
    ∃ e, (sampleCmd.tobuildArgs.build sampleWorld sampleGroup samplePlan).2
      = .returned (some (.errorFail e)) :=
  ((build_returns_when_platform_api_parses sampleWorld sampleCmd.tobuildArgs sampleGroup
      samplePlan).1 (Or.inl ⟨⟨0, 4⟩, rfl⟩)).1.imp (fun h => h.1) (fun h => h)

end Lifecycle
